import Mathlib

/-
  Shallow embedding of `nodes.py` from the ComfyUI_preview360panorama
  repository: the still-image node `PanoramaViewerNode.view_pano` and the
  video-sequence node `PanoramaVideoViewerNode.view_video_pano`.

  Modelling conventions:
  * numpy arrays / torch tensors are a shape (list of dimension sizes)
    plus a flat row-major buffer of rational scalars, together with a
    dtype tag (`uint8` vs any floating dtype);
  * Python integer arithmetic on nonnegative quantities is Nat
    arithmetic; `int()` of a nonnegative exact quotient is Nat division;
  * the numpy float-to-uint8 `astype` cast truncates toward zero and
    reduces modulo 256 (the platform-typical wraparound of the C cast);
  * fallible library calls (`images[0]`, `Image.fromarray`) return
    `Except String`;
  * PIL's PNG encode + base64 wrapping is modelled as a concrete
    deterministic serialization of the image content (the exact PNG byte
    stream is an external library detail; every claim only depends on
    the encoding being a fixed function of the processed image);
  * PIL's Lanczos resampling is modelled as a per-channel index
    resampling (the filter kernel's floating-point numerics are an
    external library detail; the verified content is the computed output
    size and the per-channel independence).
-/

deriving instance DecidableEq for Except

namespace Pano360

/-- numpy dtype tag: `uint8`, or any non-uint8 (floating) dtype. -/
inductive DType where
  | uint8 : DType
  | float : DType
deriving DecidableEq

/-- A numpy ndarray / torch tensor: dtype tag, shape, flat row-major data. -/
structure NpArr where
  dtype : DType
  shape : List ℕ
  data : List ℚ
deriving DecidableEq

/-- Truncation toward zero of a rational, as Python `int()` / the C cast do. -/
def ratTrunc (q : ℚ) : ℤ :=
  if q < 0 then -(Rat.floor (-q)) else Rat.floor q

/-- One scalar of `(x * 255).astype(np.uint8)`: scale by 255, truncate toward
zero, reduce modulo 256 (numpy's C-cast wraparound for out-of-range values). -/
def scale255 (q : ℚ) : ℚ :=
  (((ratTrunc (255 * q)).emod 256 : ℤ) : ℚ)

/-- `if image_np.dtype != np.uint8: image_np = (image_np * 255).astype(np.uint8)`
(nodes.py lines 94-95 and 221-222). -/
def toU8Arr (a : NpArr) : NpArr :=
  if a.dtype = DType.uint8 then a
  else { dtype := DType.uint8, shape := a.shape, data := a.data.map scale255 }

/-- Fuel-driven worker for `chunkList` (structural recursion on the fuel, so
that the kernel can evaluate it). -/
def chunkListAux : ℕ → ℕ → List ℚ → List (List ℚ)
  | 0, _, _ => []
  | _ + 1, _, [] => []
  | fuel + 1, k, x :: xs => (x :: xs).take k :: chunkListAux fuel k ((x :: xs).drop k)

/-- Split a flat buffer into consecutive chunks of size `k` (helper for the
flat-buffer semantics of `np.repeat`). -/
def chunkList (k : ℕ) (l : List ℚ) : List (List ℚ) :=
  if k = 0 then [] else chunkListAux l.length k l

/-- `a[..., np.newaxis]`: append a trailing axis of size 1 (flat data unchanged). -/
def npNewaxis (a : NpArr) : NpArr :=
  { dtype := a.dtype, shape := a.shape ++ [1], data := a.data }

/-- `np.repeat(a, k, axis=2)` in flat row-major form: each slice along axis 2
(a block of `inner` scalars, `inner` = product of the dimensions after axis 2)
is repeated `k` times consecutively; dimension 2 is multiplied by `k`. -/
def npRepeatAxis2 (k : ℕ) (a : NpArr) : NpArr :=
  let inner := (a.shape.drop 3).prod
  let n := a.shape.getD 2 1
  { dtype := a.dtype,
    shape := a.shape.take 2 ++ [k * n] ++ a.shape.drop 3,
    data := ((chunkList inner a.data).map fun c => (List.replicate k c).flatten).flatten }

/-- `if len(image_np.shape) == 2 or image_np.shape[2] == 1:
image_np = np.repeat(image_np[..., np.newaxis], 3, axis=2)`
(nodes.py lines 98-99 and 225-226). Accessing `shape[2]` on an array of rank
below 3 raises an IndexError, as in Python. -/
def grayStep (a : NpArr) : Except String NpArr :=
  if a.shape.length = 2 then Except.ok (npRepeatAxis2 3 (npNewaxis a))
  else if a.shape.length < 3 then Except.error "IndexError: tuple index out of range"
  else if a.shape.getD 2 0 = 1 then Except.ok (npRepeatAxis2 3 (npNewaxis a))
  else Except.ok a

/-- A PIL image: mode string, size (width, height), flat pixel buffer. -/
structure PILImage where
  mode : String
  width : ℕ
  height : ℕ
  data : List ℚ
deriving DecidableEq

/-- Number of channels of a PIL mode. -/
def modeChannels (m : String) : ℕ :=
  if m = "RGB" then 3 else if m = "RGBA" then 4 else if m = "LA" then 2 else 1

/-- `Image.fromarray`: accepts uint8 arrays of shape (H, W), (H, W, 2),
(H, W, 3), (H, W, 4) (PIL's `_fromarray_typemap`); any other shape — in
particular rank-4 arrays such as (H, W, 3, 1) — raises
"Cannot handle this data type". A non-uint8 rank-2 array becomes mode F. -/
def fromarray (a : NpArr) : Except String PILImage :=
  if a.dtype = DType.uint8 then
    match a.shape with
    | [h, w] => Except.ok ⟨"L", w, h, a.data⟩
    | [h, w, 2] => Except.ok ⟨"LA", w, h, a.data⟩
    | [h, w, 3] => Except.ok ⟨"RGB", w, h, a.data⟩
    | [h, w, 4] => Except.ok ⟨"RGBA", w, h, a.data⟩
    | _ => Except.error "Cannot handle this data type"
  else
    match a.shape with
    | [h, w] => Except.ok ⟨"F", w, h, a.data⟩
    | _ => Except.error "Cannot handle this data type"

/-- Model of PIL `resize` pixel content: per-channel index resampling from the
source buffer (stand-in for the Lanczos kernel, which resamples each channel
independently; its floating-point numerics are outside the embedding). -/
def resampleNearest (img : PILImage) (w2 h2 : ℕ) : List ℚ :=
  let C := modeChannels img.mode
  (List.range (h2 * w2 * C)).map fun idx =>
    let c := idx % C
    let j := idx / C % w2
    let i := idx / C / w2
    img.data.getD ((i * img.height / h2 * img.width + j * img.width / w2) * C + c) 0

/-- The optional resize (nodes.py lines 104-111 and 231-238):
`if max_width > 0 and (size[0] > max_width or size[1] > max_width):
new_size = tuple([int(max_width * x / max(size)) for x in size])`
with `size = (width, height)`, then `resize(new_size, LANCZOS)`. -/
def resizeStep (img : PILImage) (mw : ℤ) : PILImage :=
  if 0 < mw ∧ (mw < (img.width : ℤ) ∨ mw < (img.height : ℤ)) then
    let M := max img.width img.height
    let w2 := mw.toNat * img.width / M
    let h2 := mw.toNat * img.height / M
    ⟨img.mode, w2, h2, resampleNearest img w2 h2⟩
  else img

/-- Serialization of one scalar (numerator and denominator). -/
def ratStr (q : ℚ) : String :=
  toString q.num ++ "r" ++ toString q.den

/-- Model of `pil_image.save(buffered, format="PNG")` followed by
`base64.b64encode(...).decode()`: a deterministic serialization of the image
content standing in for the PNG byte stream. -/
def encodeImg (img : PILImage) : String :=
  img.mode ++ ";" ++ toString img.width ++ "x" ++ toString img.height ++ ";"
    ++ String.intercalate "," (img.data.map ratStr)

/-- `f"data:image/png;base64,{img_str}"`. -/
def dataURI (img : PILImage) : String :=
  "data:image/png;base64," ++ encodeImg img

/-- A value of the returned `ui` dictionary: a string or a list of strings. -/
inductive UIVal where
  | str : String → UIVal
  | list : List String → UIVal
deriving DecidableEq

/-- The `ui` dictionary of a node's return value, as an ordered key-value list. -/
def UI : Type := List (String × UIVal)

instance : DecidableEq UI := by
  unfold UI
  infer_instance

/-- Dictionary access on a `ui` payload. -/
def uiLookup (k : String) : UI → Option UIVal
  | [] => none
  | (k2, v) :: rest => if k2 = k then some v else uiLookup k rest

/-- `images[0]` on the batch axis (nodes.py line 86); raises an IndexError when
the batch is empty, as torch indexing does. -/
def npGetFirst (a : NpArr) : Except String NpArr :=
  match a.shape with
  | [] => Except.error "IndexError: invalid index of a 0-dim tensor"
  | s :: rest =>
    if s = 0 then
      Except.error "IndexError: index 0 is out of bounds for dimension 0 with size 0"
    else Except.ok { dtype := a.dtype, shape := rest, data := a.data.take rest.prod }

/-- Steps 2-6 of `PanoramaViewerNode.view_pano` (nodes.py lines 90-118), after
batch selection: dtype conversion, grayscale promotion, `Image.fromarray`,
optional resize, PNG + base64 encoding into a data URI. -/
def stillCore (image : NpArr) (mw : ℤ) : Except String String :=
  match grayStep (toU8Arr image) with
  | Except.error e => Except.error e
  | Except.ok a =>
    match fromarray a with
    | Except.error e => Except.error e
    | Except.ok pil => Except.ok (dataURI (resizeStep pil mw))

/-- `PanoramaViewerNode.view_pano` (nodes.py lines 60-119): batch selection
then the per-image pipeline, returning `{"ui": {"pano_image": ...}}`. -/
def view_pano (images : NpArr) (mw : ℤ) : Except String UI :=
  match (if images.shape.length = 4 then npGetFirst images else Except.ok images) with
  | Except.error e => Except.error e
  | Except.ok image =>
    match stillCore image mw with
    | Except.error e => Except.error e
    | Except.ok s => Except.ok [("pano_image", UIVal.str s)]

/-- Sequential fallible map: the Python `for` loop appending to a list, where a
raised exception aborts the whole invocation. -/
def mapExcept (f : NpArr → Except String PILImage) : List NpArr → Except String (List PILImage)
  | [] => Except.ok []
  | x :: xs =>
    match f x with
    | Except.error e => Except.error e
    | Except.ok y =>
      match mapExcept f xs with
      | Except.error e => Except.error e
      | Except.ok ys => Except.ok (y :: ys)

/-- The body of the first loop of `view_video_pano` (nodes.py lines 216-241):
dtype conversion, grayscale promotion, `Image.fromarray`, optional resize. -/
def videoPrepareFrame (frame : NpArr) (mw : ℤ) : Except String PILImage :=
  match grayStep (toU8Arr frame) with
  | Except.error e => Except.error e
  | Except.ok a =>
    match fromarray a with
    | Except.error e => Except.error e
    | Except.ok pil => Except.ok (resizeStep pil mw)

/-- `for frame in video_frames`: iteration over the leading axis; frame `i` is
the i-th block of the flat buffer with the leading dimension dropped. -/
def framesOf (v : NpArr) : List NpArr :=
  match v.shape with
  | [] => []
  | b :: rest =>
    (List.range b).map fun i =>
      { dtype := v.dtype, shape := rest, data := (v.data.drop (i * rest.prod)).take rest.prod }

/-- `PanoramaVideoViewerNode.view_video_pano` (nodes.py lines 183-266): reject
non-rank-4 input, process every frame, soft-fail on an empty batch, else
return the frame URIs with preview, count, fps and video type. -/
def view_video_pano (v : NpArr) (fps mw : ℤ) : Except String UI :=
  if v.shape.length ≠ 4 then
    Except.error "Expected video frames in batch format (B, H, W, C)"
  else
    match mapExcept (fun f => videoPrepareFrame f mw) (framesOf v) with
    | Except.error e => Except.error e
    | Except.ok processed =>
      if processed.isEmpty then Except.ok [("error", UIVal.str "No frames found in input")]
      else
        let frameData := processed.map dataURI
        Except.ok
          [("pano_video_preview", UIVal.str (frameData.headD "")),
           ("pano_video_frames", UIVal.list frameData),
           ("frame_count", UIVal.str (toString processed.length)),
           ("fps", UIVal.str (toString fps)),
           ("video_type", UIVal.str "360_equirectangular")]

/-! ### Helper lemmas -/

lemma lt_div_succ_mul (a b : ℕ) (hb : 0 < b) : a < (a / b + 1) * b := by
  calc a = b * (a / b) + a % b := (Nat.div_add_mod a b).symm
  _ < b * (a / b) + b := Nat.add_lt_add_left (Nat.mod_lt a hb) _
  _ = (a / b + 1) * b := by ring

lemma mapExcept_forall2 {g : NpArr → Except String PILImage} :
    ∀ {l : List NpArr} {ys : List PILImage}, mapExcept g l = Except.ok ys →
      List.Forall₂ (fun x y => g x = Except.ok y) l ys := by
  intro l
  induction l with
  | nil =>
    intro ys h
    unfold mapExcept at h
    injection h with h
    subst h
    exact List.Forall₂.nil
  | cons x xs ih =>
    intro ys h
    unfold mapExcept at h
    cases hgx : g x with
    | error e => rw [hgx] at h; cases h
    | ok y =>
      rw [hgx] at h
      cases hm : mapExcept g xs with
      | error e => rw [hm] at h; cases h
      | ok ys2 =>
        rw [hm] at h
        injection h with h
        subst h
        exact List.Forall₂.cons hgx (ih hm)

lemma stillCore_eq_map_videoPrepareFrame (f : NpArr) (mw : ℤ) :
    stillCore f mw = Except.map dataURI (videoPrepareFrame f mw) := by
  unfold stillCore videoPrepareFrame
  cases grayStep (toU8Arr f) with
  | error e => rfl
  | ok a =>
    dsimp only
    cases fromarray a with
    | error e => rfl
    | ok pil => rfl

lemma forall2_still_of_prepare {mw : ℤ} : ∀ {l : List NpArr} {ps : List PILImage},
    List.Forall₂ (fun x y => videoPrepareFrame x mw = Except.ok y) l ps →
    List.Forall₂ (fun f u => stillCore f mw = Except.ok u) l (ps.map dataURI) := by
  intro l ps h
  induction h with
  | nil => exact List.Forall₂.nil
  | cons hxy htl ih =>
    exact List.Forall₂.cons
      (by rw [stillCore_eq_map_videoPrepareFrame, hxy]; rfl) ih

/-! ### Claims -/

/-- Claim C1 (code bug): for a grayscale raster given with an explicit trailing
channel dimension of size 1 — here the still node's input of shape (1, 1, 1) —
the grayscale-promotion step `np.repeat(image_np[..., np.newaxis], 3, axis=2)`
does not produce a 3-channel raster: the extra `np.newaxis` on an already
rank-3 array yields shape (1, 1, 3, 1) (rank 4), and `Image.fromarray` then
raises, so no raster at all is handed to encoding. This contradicts the
documented grayscale-to-RGB conversion, which works only for rank-2 input. -/
theorem grayscale_channel1_shape_bug :
    grayStep { dtype := DType.uint8, shape := [1, 1, 1], data := [7] }
      = Except.ok { dtype := DType.uint8, shape := [1, 1, 3, 1], data := [7, 7, 7] }
    ∧ view_pano { dtype := DType.uint8, shape := [1, 1, 1], data := [7] } 4096
      = Except.error "Cannot handle this data type"
    ∧ grayStep { dtype := DType.uint8, shape := [2, 2], data := [1, 2, 3, 4] }
      = Except.ok { dtype := DType.uint8, shape := [2, 2, 3],
                    data := [1, 1, 1, 2, 2, 2, 3, 3, 3, 4, 4, 4] } := by
  refine ⟨by decide, by rfl, by decide⟩

/-- Claim C2: whenever `max_width` is positive and the longer side exceeds it,
the resize step (shared verbatim by both nodes) outputs dimensions
`⌊max_width * x / max(w, h)⌋`; the longer side becomes exactly `max_width` and
both dimensions are the proportional values up to less than one pixel of
floor rounding. -/
theorem resize_longer_side_eq_max_width (img : PILImage) (mw : ℤ)
    (hm : 0 < mw) (hex : mw < ((max img.width img.height : ℕ) : ℤ)) :
    (resizeStep img mw).width = mw.toNat * img.width / max img.width img.height ∧
    (resizeStep img mw).height = mw.toNat * img.height / max img.width img.height ∧
    max (resizeStep img mw).width (resizeStep img mw).height = mw.toNat ∧
    (resizeStep img mw).width * max img.width img.height ≤ mw.toNat * img.width ∧
    mw.toNat * img.width < ((resizeStep img mw).width + 1) * max img.width img.height ∧
    (resizeStep img mw).height * max img.width img.height ≤ mw.toNat * img.height ∧
    mw.toNat * img.height < ((resizeStep img mw).height + 1) * max img.width img.height := by
  have hMlt : mw.toNat < max img.width img.height := by omega
  have hM0 : 0 < max img.width img.height := lt_of_le_of_lt (Nat.zero_le _) hMlt
  have hcond : 0 < mw ∧ (mw < (img.width : ℤ) ∨ mw < (img.height : ℤ)) := by
    refine ⟨hm, ?_⟩
    have hc : mw < max (img.width : ℤ) (img.height : ℤ) := by push_cast at hex; exact hex
    exact lt_max_iff.mp hc
  unfold resizeStep
  rw [if_pos hcond]
  dsimp only
  refine ⟨rfl, rfl, ?_, Nat.div_mul_le_self _ _,
    lt_div_succ_mul _ _ hM0, Nat.div_mul_le_self _ _, lt_div_succ_mul _ _ hM0⟩
  rcases le_total img.width img.height with hwh | hwh
  · have hMh : max img.width img.height = img.height := max_eq_right hwh
    have e2 : mw.toNat * img.height / max img.width img.height = mw.toNat := by
      rw [hMh]
      exact Nat.mul_div_cancel _ (hMh ▸ hM0)
    have e1 : mw.toNat * img.width / max img.width img.height ≤ mw.toNat := by
      calc mw.toNat * img.width / max img.width img.height
          ≤ mw.toNat * img.height / max img.width img.height :=
            Nat.div_le_div_right (Nat.mul_le_mul_left _ hwh)
        _ = mw.toNat := e2
    rw [e2]
    exact max_eq_right (e2 ▸ e1)
  · have hMw : max img.width img.height = img.width := max_eq_left hwh
    have e1 : mw.toNat * img.width / max img.width img.height = mw.toNat := by
      rw [hMw]
      exact Nat.mul_div_cancel _ (hMw ▸ hM0)
    have e2 : mw.toNat * img.height / max img.width img.height ≤ mw.toNat := by
      calc mw.toNat * img.height / max img.width img.height
          ≤ mw.toNat * img.width / max img.width img.height :=
            Nat.div_le_div_right (Nat.mul_le_mul_left _ hwh)
        _ = mw.toNat := e1
    rw [e1]
    exact max_eq_left (e1 ▸ e2)

/-- Witness for C2 at a concrete 8×4 RGB image with `max_width = 4`:
the output is 4×2, longer side exactly 4, both floors tight. -/
theorem resize_longer_side_eq_max_width_witness :
    (resizeStep ⟨"RGB", 8, 4, []⟩ 4).width = (4 : ℤ).toNat * 8 / max 8 4 ∧
    (resizeStep ⟨"RGB", 8, 4, []⟩ 4).height = (4 : ℤ).toNat * 4 / max 8 4 ∧
    max (resizeStep ⟨"RGB", 8, 4, []⟩ 4).width (resizeStep ⟨"RGB", 8, 4, []⟩ 4).height
      = (4 : ℤ).toNat ∧
    (resizeStep ⟨"RGB", 8, 4, []⟩ 4).width * max 8 4 ≤ (4 : ℤ).toNat * 8 ∧
    (4 : ℤ).toNat * 8 < ((resizeStep ⟨"RGB", 8, 4, []⟩ 4).width + 1) * max 8 4 ∧
    (resizeStep ⟨"RGB", 8, 4, []⟩ 4).height * max 8 4 ≤ (4 : ℤ).toNat * 4 ∧
    (4 : ℤ).toNat * 4 < ((resizeStep ⟨"RGB", 8, 4, []⟩ 4).height + 1) * max 8 4 :=
  resize_longer_side_eq_max_width ⟨"RGB", 8, 4, []⟩ 4 (by decide) (by decide)

/-- Claim C3: with `max_width = -1`, and likewise whenever the longer side is
at most `max_width`, the resize step leaves the image (hence its dimensions)
unchanged. -/
theorem no_resize_when_disabled_or_small (img : PILImage) (mw : ℤ)
    (hsmall : ((max img.width img.height : ℕ) : ℤ) ≤ mw) :
    resizeStep img (-1) = img ∧ resizeStep img mw = img := by
  constructor
  · unfold resizeStep
    rw [if_neg]
    rintro ⟨h1, -⟩
    exact absurd h1 (by decide)
  · unfold resizeStep
    rw [if_neg]
    have hcast : max (img.width : ℤ) (img.height : ℤ) ≤ mw := by push_cast at hsmall; exact hsmall
    rintro ⟨-, h2 | h2⟩
    · exact absurd h2 (not_lt.mpr (le_trans (le_max_left _ _) hcast))
    · exact absurd h2 (not_lt.mpr (le_trans (le_max_right _ _) hcast))

/-- Witness for C3 at a concrete 2×1 image with `max_width = 5`. -/
theorem no_resize_when_disabled_or_small_witness :
    resizeStep ⟨"RGB", 2, 1, [0, 0, 0, 0, 0, 0]⟩ (-1) = ⟨"RGB", 2, 1, [0, 0, 0, 0, 0, 0]⟩ ∧
    resizeStep ⟨"RGB", 2, 1, [0, 0, 0, 0, 0, 0]⟩ 5 = ⟨"RGB", 2, 1, [0, 0, 0, 0, 0, 0]⟩ :=
  no_resize_when_disabled_or_small ⟨"RGB", 2, 1, [0, 0, 0, 0, 0, 0]⟩ 5 (by decide)

/-- Claim C10: any non-positive `max_width` (not only the documented `-1`,
also `0` or `-5`) disables the resize step shared by both nodes, leaving
dimensions unchanged. -/
theorem nonpositive_max_width_no_resize (img : PILImage) (mw : ℤ) (hmw : mw ≤ 0) :
    resizeStep img mw = img := by
  unfold resizeStep
  rw [if_neg]
  rintro ⟨h1, -⟩
  omega

/-- Witness for C10 at `max_width = 0` on a concrete oversized image. -/
theorem nonpositive_max_width_no_resize_witness :
    resizeStep ⟨"RGB", 9000, 4500, []⟩ 0 = ⟨"RGB", 9000, 4500, []⟩ :=
  nonpositive_max_width_no_resize ⟨"RGB", 9000, 4500, []⟩ 0 (by decide)

/-- Claim C6: the video node rejects any input tensor that is not rank 4 with
a raised `ValueError` before processing any frame; no UI payload is
returned. -/
theorem video_rejects_non_batched (v : NpArr) (fps mw : ℤ)
    (h : v.shape.length ≠ 4) :
    view_video_pano v fps mw
      = Except.error "Expected video frames in batch format (B, H, W, C)" := by
  unfold view_video_pano
  rw [if_pos h]

/-- Witness for C6 at a concrete rank-3 tensor. -/
theorem video_rejects_non_batched_witness :
    view_video_pano { dtype := DType.uint8, shape := [1, 1, 3], data := [0, 0, 0] } 30 2048
      = Except.error "Expected video frames in batch format (B, H, W, C)" :=
  video_rejects_non_batched { dtype := DType.uint8, shape := [1, 1, 3], data := [0, 0, 0] }
    30 2048 (by decide)

/-- Claim C7: a rank-4 input with batch size 0 yields the soft-fail payload
`{"ui": {"error": "No frames found in input"}}` — an `Except.ok` result, not a
raised error — and that payload carries no `pano_video_frames` key. -/
theorem video_empty_batch_soft_error (h w c : ℕ) (dt : DType) (xs : List ℚ) (fps mw : ℤ) :
    view_video_pano { dtype := dt, shape := [0, h, w, c], data := xs } fps mw
      = Except.ok [("error", UIVal.str "No frames found in input")]
    ∧ uiLookup "pano_video_frames" [("error", UIVal.str "No frames found in input")] = none := by
  constructor
  · unfold view_video_pano
    rw [if_neg (by simp)]
    have hframes : framesOf { dtype := dt, shape := [0, h, w, c], data := xs } = [] := by
      unfold framesOf
      simp
    rw [hframes]
    rfl
  · decide

/-- Claim C4: for rank-4 (batched) still-node inputs, the output depends only
on batch entry 0: two batched tensors with the same dtype, the same per-frame
shape, and the same first frame (the first `rest.prod` scalars of the flat
buffer) produce identical results, whatever the later batch entries are. -/
theorem view_pano_first_batch_entry (a b : NpArr) (mw : ℤ)
    (ha4 : a.shape.length = 4) (hb4 : b.shape.length = 4)
    (htail : a.shape.tail = b.shape.tail)
    (hdt : a.dtype = b.dtype)
    (ha0 : 0 < a.shape.headD 0) (hb0 : 0 < b.shape.headD 0)
    (hdata : a.data.take a.shape.tail.prod = b.data.take b.shape.tail.prod) :
    view_pano a mw = view_pano b mw := by
  obtain ⟨da, sa, xa⟩ := a
  obtain ⟨db, sb, xb⟩ := b
  dsimp only at ha4 hb4 htail hdt ha0 hb0 hdata
  cases sa with
  | nil => simp at ha4
  | cons s rest =>
    cases sb with
    | nil => simp at hb4
    | cons s2 rest2 =>
      simp only [List.tail_cons] at htail hdata
      simp only [List.headD_cons] at ha0 hb0
      subst htail
      subst hdt
      unfold view_pano
      rw [if_pos ha4, if_pos hb4]
      unfold npGetFirst
      dsimp only
      rw [if_neg (by omega), if_neg (by omega)]
      dsimp only
      rw [hdata]

/-- Witness for C4: a 2-frame batch whose second frame is junk versus the
1-frame batch holding only the first frame give the same UI payload. -/
theorem view_pano_first_batch_entry_witness :
    view_pano { dtype := DType.uint8, shape := [2, 1, 1, 3], data := [1, 2, 3, 9, 9, 9] } (-1)
      = view_pano { dtype := DType.uint8, shape := [1, 1, 1, 3], data := [1, 2, 3] } (-1) :=
  view_pano_first_batch_entry
    { dtype := DType.uint8, shape := [2, 1, 1, 3], data := [1, 2, 3, 9, 9, 9] }
    { dtype := DType.uint8, shape := [1, 1, 1, 3], data := [1, 2, 3] } (-1)
    (by decide) (by decide) (by decide) (by decide) (by decide) (by decide) (by decide)

/-- Claim C5 (counterexample): the claim says every output pixel equals
`255 * x` truncated to integer with no clamping; at the in-range-violating
input pixel `x = 2` the uint8 cast stores `254` (truncate, then wrap modulo
256), not `trunc(255 * 2) = 510`. -/
theorem u8cast_overflow_wraps :
    toU8Arr { dtype := DType.float, shape := [1, 1, 1], data := [2] }
      = { dtype := DType.uint8, shape := [1, 1, 1], data := [254] }
    ∧ ratTrunc (255 * 2) = 510
    ∧ (254 : ℚ) ≠ 510 := by
  have htr : ratTrunc (255 * 2 : ℚ) = 510 := by
    have hmul : (255 * 2 : ℚ) = 510 := by norm_num
    unfold ratTrunc
    rw [hmul, if_neg (by norm_num), Rat.floor_def']
    norm_num
  have hmod : (510 : ℤ).emod 256 = 254 := by decide
  have hs : scale255 2 = 254 := by
    unfold scale255
    rw [htr, hmod]
    norm_num
  refine ⟨?_, htr, by norm_num⟩
  unfold toU8Arr
  rw [if_neg (by decide)]
  simp [hs]

/-- Claim C5 (amended): the dtype-conversion step maps every scalar to
`trunc(255 * x) mod 256` (truncation toward zero, then the uint8 wraparound
of the cast); whenever `255 * x` lies in `[0, 256)` — in particular for all
inputs in `[0, 1]` — this is exactly `trunc(255 * x)`, with no rounding and
no clamping. -/
theorem float_scale_trunc_mod256 (a : NpArr) (hf : a.dtype ≠ DType.uint8) :
    (toU8Arr a).dtype = DType.uint8 ∧
    (toU8Arr a).shape = a.shape ∧
    (toU8Arr a).data = a.data.map scale255 ∧
    ∀ x ∈ a.data, 0 ≤ 255 * x → 255 * x < 256 →
      scale255 x = ((ratTrunc (255 * x) : ℤ) : ℚ) := by
  unfold toU8Arr
  rw [if_neg hf]
  refine ⟨rfl, rfl, rfl, ?_⟩
  intro x _ h0 h1
  unfold scale255
  have hft : ratTrunc (255 * x) = ⌊(255 * x : ℚ)⌋ := by
    unfold ratTrunc
    rw [if_neg (not_lt.mpr h0)]
    rfl
  have hmod : (ratTrunc (255 * x)).emod 256 = ratTrunc (255 * x) := by
    rw [hft]
    apply Int.emod_eq_of_lt
    · exact Int.le_floor.mpr (by exact_mod_cast h0)
    · exact Int.floor_lt.mpr (by push_cast; exact h1)
  rw [hmod]

/-- Witness for C5 (amended) at the concrete float raster `[1/2]`. -/
theorem float_scale_trunc_mod256_witness :
    (toU8Arr { dtype := DType.float, shape := [1, 1, 1], data := [1/2] }).dtype = DType.uint8 ∧
    (toU8Arr { dtype := DType.float, shape := [1, 1, 1], data := [1/2] }).shape = [1, 1, 1] ∧
    (toU8Arr { dtype := DType.float, shape := [1, 1, 1], data := [1/2] }).data
      = [(1/2 : ℚ)].map scale255 ∧
    ∀ x ∈ [(1/2 : ℚ)], 0 ≤ 255 * x → 255 * x < 256 →
      scale255 x = ((ratTrunc (255 * x) : ℤ) : ℚ) :=
  float_scale_trunc_mod256 { dtype := DType.float, shape := [1, 1, 1], data := [1/2] }
    (by decide)

/-- Claim C8: for a rank-4 batch of `b ≥ 1` frames whose per-frame processing
succeeds, the returned payload holds exactly the `b` frame URIs in input
order under `pano_video_frames`, the first of them as `pano_video_preview`,
`frame_count = toString b`, `fps = toString fps`, and the fixed
`video_type = "360_equirectangular"`. -/
theorem video_payload_structure (v : NpArr) (fps mw : ℤ) (b : ℕ) (rest : List ℕ)
    (ps : List PILImage)
    (hs : v.shape = b :: rest) (hr : rest.length = 3) (hb : 0 < b)
    (hok : mapExcept (fun f => videoPrepareFrame f mw) (framesOf v) = Except.ok ps) :
    ps.length = b ∧ (ps.map dataURI).length = b ∧
    view_video_pano v fps mw = Except.ok
      [("pano_video_preview", UIVal.str ((ps.map dataURI).headD "")),
       ("pano_video_frames", UIVal.list (ps.map dataURI)),
       ("frame_count", UIVal.str (toString b)),
       ("fps", UIVal.str (toString fps)),
       ("video_type", UIVal.str "360_equirectangular")] := by
  have hfl : (framesOf v).length = b := by
    unfold framesOf
    rw [hs]
    simp
  have hlen : ps.length = b := by
    have h2 := (mapExcept_forall2 hok).length_eq
    omega
  have hne : ps.isEmpty = false := by
    cases ps with
    | nil => simp at hlen; omega
    | cons p ps2 => rfl
  refine ⟨hlen, by simp [hlen], ?_⟩
  unfold view_video_pano
  rw [if_neg (by simp [hs, hr])]
  rw [hok]
  dsimp only
  rw [hne, if_neg (by simp), hlen]

/-- Witness for C8: a concrete 2-frame uint8 batch with `fps = 24`,
`max_width = -1`. -/
theorem video_payload_structure_witness :
    ([(⟨"RGB", 1, 1, [1, 2, 3]⟩ : PILImage), ⟨"RGB", 1, 1, [4, 5, 6]⟩] : List PILImage).length = 2 ∧
    (([(⟨"RGB", 1, 1, [1, 2, 3]⟩ : PILImage), ⟨"RGB", 1, 1, [4, 5, 6]⟩].map dataURI)).length = 2 ∧
    view_video_pano { dtype := DType.uint8, shape := [2, 1, 1, 3], data := [1, 2, 3, 4, 5, 6] }
        24 (-1)
      = Except.ok
        [("pano_video_preview",
          UIVal.str (([(⟨"RGB", 1, 1, [1, 2, 3]⟩ : PILImage),
            ⟨"RGB", 1, 1, [4, 5, 6]⟩].map dataURI).headD "")),
         ("pano_video_frames",
          UIVal.list ([(⟨"RGB", 1, 1, [1, 2, 3]⟩ : PILImage),
            ⟨"RGB", 1, 1, [4, 5, 6]⟩].map dataURI)),
         ("frame_count", UIVal.str (toString (2 : ℕ))),
         ("fps", UIVal.str (toString (24 : ℤ))),
         ("video_type", UIVal.str "360_equirectangular")] :=
  video_payload_structure
    { dtype := DType.uint8, shape := [2, 1, 1, 3], data := [1, 2, 3, 4, 5, 6] }
    24 (-1) 2 [1, 1, 3]
    [⟨"RGB", 1, 1, [1, 2, 3]⟩, ⟨"RGB", 1, 1, [4, 5, 6]⟩]
    rfl rfl (by decide) (by decide)

/-- Claim C9: whenever the video node returns a payload whose
`pano_video_frames` key holds the list `fd`, that list is exactly the
frame-wise map of the still node's per-image pipeline (`stillCore`: dtype
conversion, grayscale promotion, resize against `max_width`, PNG-base64
encoding) over the batch frames, in order. -/
theorem video_frames_refine_still (v : NpArr) (fps mw : ℤ) (ui : UI) (fd : List String)
    (h1 : view_video_pano v fps mw = Except.ok ui)
    (h2 : uiLookup "pano_video_frames" ui = some (UIVal.list fd)) :
    List.Forall₂ (fun f u => stillCore f mw = Except.ok u) (framesOf v) fd := by
  unfold view_video_pano at h1
  by_cases h4 : v.shape.length = 4
  · rw [if_neg (by simp [h4])] at h1
    cases hm : mapExcept (fun f => videoPrepareFrame f mw) (framesOf v) with
    | error e => rw [hm] at h1; cases h1
    | ok ps =>
      rw [hm] at h1
      dsimp only at h1
      cases ps with
      | nil =>
        rw [if_pos List.isEmpty_nil] at h1
        injection h1 with h1
        subst h1
        have hn : uiLookup "pano_video_frames"
            [("error", UIVal.str "No frames found in input")] = none := by decide
        rw [hn] at h2
        cases h2
      | cons p ps2 =>
        rw [if_neg (by simp)] at h1
        injection h1 with h1
        subst h1
        unfold uiLookup at h2
        rw [if_neg (by decide)] at h2
        unfold uiLookup at h2
        rw [if_pos rfl] at h2
        injection h2 with h2
        injection h2 with h2
        subst h2
        exact forall2_still_of_prepare (mapExcept_forall2 hm)
  · rw [if_pos h4] at h1
    cases h1

/-- Witness for C9: one 1×1 RGB frame, `fps = 24`, `max_width = -1`: the
single returned URI equals the still pipeline's output on that frame. -/
theorem video_frames_refine_still_witness :
    List.Forall₂ (fun f u => stillCore f (-1) = Except.ok u)
      (framesOf { dtype := DType.uint8, shape := [1, 1, 1, 3], data := [1, 2, 3] })
      ["data:image/png;base64,RGB;1x1;1r1,2r1,3r1"] :=
  video_frames_refine_still { dtype := DType.uint8, shape := [1, 1, 1, 3], data := [1, 2, 3] }
    24 (-1)
    [("pano_video_preview", UIVal.str "data:image/png;base64,RGB;1x1;1r1,2r1,3r1"),
     ("pano_video_frames", UIVal.list ["data:image/png;base64,RGB;1x1;1r1,2r1,3r1"]),
     ("frame_count", UIVal.str "1"),
     ("fps", UIVal.str "24"),
     ("video_type", UIVal.str "360_equirectangular")]
    ["data:image/png;base64,RGB;1x1;1r1,2r1,3r1"]
    (by rfl) (by decide)

end Pano360
